import Mathlib

/-!
Verification development for the Trezor transaction-signing core
(`src/core/src/apps/wallet/sign_tx/signing.py` and
`src/core/src/apps/wallet/sign_tx/bitcoinlike.py`).

The Python signing state machine is shallowly embedded: stateful methods
become pure functions with explicit state passing, fallible code returns
`Except SigningError`, and external collaborators (the `writers`, `scripts`,
`addresses`, `multisig`, `cashaddr` and crypto modules, which live outside
the two source files) are passed in as function parameters or, when a claim
depends on their behaviour, modelled from the specification and marked so.
Machine integers are `Nat`/`Int`: all quantities involved (amounts, counts,
fee) are Python arbitrary-precision ints in the source.
-/

-- ===========================================================================
-- Data model (trezor.messages types, restricted to the fields the signing
-- core reads)
-- ===========================================================================

/-- FailureType codes used by the signing core (`trezor.messages.FailureType`). -/
inductive FailureType where
  | DataError
  | ProcessError
  | ActionCancelled
  | NotEnoughFunds
deriving DecidableEq, Repr

/-- Embedding of `SigningError(ValueError)` from signing.py.  Raise sites normally pass a
`FailureType` followed by a message; `code` is `none` when a raise site passes
only a message string (no failure code). -/
structure SigningError where
  code : Option FailureType
  message : String
deriving DecidableEq, Repr

/-- Members of `trezor.messages.InputScriptType` used by the signing core. -/
inductive InputScriptType where
  | SPENDADDRESS
  | SPENDMULTISIG
  | SPENDWITNESS
  | SPENDP2SHWITNESS
deriving DecidableEq, Repr

/-- Members of `trezor.messages.OutputScriptType` used by the signing core. -/
inductive OutputScriptType where
  | PAYTOADDRESS
  | PAYTOSCRIPTHASH
  | PAYTOMULTISIG
  | PAYTOWITNESS
  | PAYTOP2SHWITNESS
  | PAYTOOPRETURN
deriving DecidableEq, Repr

/-- Multisig descriptor (`MultisigRedeemScriptType`): public keys and the
threshold m, the parts the fingerprint is computed from. -/
structure MultisigType where
  pubkeys : List Nat
  m : Nat
deriving DecidableEq, Repr

/-- Embedding of `TxInputType`: an input as streamed by the host.  A missing `amount`
(legacy inputs may omit it) is encoded as 0, which is exactly the Python
falsiness test `not txi.amount` used by the source. -/
structure TxInputType where
  prev_hash : List Nat
  prev_index : Nat
  amount : Nat
  script_type : InputScriptType
  address_n : List Nat
  multisig : Option MultisigType
  sequence_no : Nat
deriving DecidableEq, Repr

/-- Embedding of `TxOutputType`: an output as streamed by the host. -/
structure TxOutputType where
  amount : Nat
  script_type : OutputScriptType
  address : String
  address_n : List Nat
  multisig : Option MultisigType
deriving DecidableEq, Repr

/-- Embedding of `TxOutputBinType`: binary output (amount and derived scriptPubKey). -/
structure TxOutputBinType where
  amount : Nat
  script_pubkey : List Nat
deriving DecidableEq, Repr

/-- Previous-transaction metadata (`TransactionType` fields read by
`get_prevtx_output_value`). -/
structure TransactionType where
  version : Nat
  lock_time : Nat
  inputs_cnt : Nat
  outputs_cnt : Nat
deriving DecidableEq, Repr

/-- The `CoinInfo` flags read by the two source files. -/
structure CoinInfo where
  negative_fee : Bool
  fork_id : Option Nat
  cashaddr_pfx : Option String
  address_type : Nat
  address_type_p2sh : Nat
  segwit : Bool
  force_bip143 : Bool
  sign_hash_double : Bool
  has_timestamp : Bool
deriving DecidableEq, Repr

-- constants from signing.py
def BIP32_WALLET_DEPTH : Nat := 2
def BIP32_CHANGE_CHAIN : Nat := 1
def BIP32_MAX_LAST_ELEMENT : Nat := 1000000

/-- Modelled from the spec: `helpers.CHANGE_OUTPUT_SCRIPT_TYPES` (the module
`helpers` is not under src/).  The spec calls it "the change-allowed set" of
output script types; change outputs are key-addressed, so every type except
OP_RETURN and raw script hash qualifies. -/
def CHANGE_OUTPUT_SCRIPT_TYPES : List OutputScriptType :=
  [.PAYTOADDRESS, .PAYTOMULTISIG, .PAYTOWITNESS, .PAYTOP2SHWITNESS]

/-- Modelled from the spec: `helpers.SEGWIT_INPUT_SCRIPT_TYPES` (module not
under src/).  Spec §3 and §4.1 classify SPENDWITNESS and SPENDP2SHWITNESS as
the segwit-class input script types. -/
def SEGWIT_INPUT_SCRIPT_TYPES : List InputScriptType :=
  [.SPENDWITNESS, .SPENDP2SHWITNESS]

/-- Modelled from the spec: `helpers.NONSEGWIT_INPUT_SCRIPT_TYPES` (module not
under src/); the non-segwit classes per spec §4.1. -/
def NONSEGWIT_INPUT_SCRIPT_TYPES : List InputScriptType :=
  [.SPENDADDRESS, .SPENDMULTISIG]

/-- Embedding of `input_is_segwit` from signing.py. -/
def input_is_segwit (txi : TxInputType) : Bool :=
  txi.script_type ∈ SEGWIT_INPUT_SCRIPT_TYPES

/-- Embedding of `input_is_nonsegwit` from signing.py. -/
def input_is_nonsegwit (txi : TxInputType) : Bool :=
  txi.script_type ∈ NONSEGWIT_INPUT_SCRIPT_TYPES

-- ===========================================================================
-- MatchChecker (signing.py lines 51-117)
-- ===========================================================================

/-- The sentinel-or-value state of a MatchChecker attribute.  The source uses
object identity for the UNDEFINED and MISMATCH sentinels; here they are
constructors of a tagged variant. -/
inductive MCAttr (α : Type) where
  | undefined
  | mismatch
  | value (a : α)
deriving DecidableEq, Repr

def MCAttr.isMismatch {α : Type} : MCAttr α → Bool
  | .mismatch => true
  | _ => false

/-- MatchChecker state: the tracked attribute and the read-only latch. -/
structure MatchChecker (α : Type) where
  attr : MCAttr α
  read_only : Bool
deriving DecidableEq, Repr

/-- Python `==` between the result of `attribute_from_tx` (`none` models a
returned `None`) and the stored attribute: sentinels are equal to nothing the
extractor can return. -/
def attrEq {α : Type} [DecidableEq α] : Option α → MCAttr α → Bool
  | some a, .value b => a = b
  | _, _ => false

/-- Embedding of `MatchChecker.add_input`.  `added` is the result of `attribute_from_tx`
on the input; `falsy` is Python falsiness on attribute values (empty list,
etc.).  The result is `none` when the `ensure(not self.read_only)` failsafe
fires. -/
def MatchChecker.add_input {α : Type} [DecidableEq α] (falsy : α → Bool)
    (mc : MatchChecker α) (added : Option α) : Option (MatchChecker α) :=
  if mc.read_only then none
  else if mc.attr.isMismatch then some mc
  else
    match added with
    | none => some { mc with attr := .mismatch }
    | some a =>
      if falsy a then some { mc with attr := .mismatch }
      else
        match mc.attr with
        | .undefined => some { mc with attr := .value a }
        | .value b => if b = a then some mc else some { mc with attr := .mismatch }
        | .mismatch => some mc

/-- Embedding of `MatchChecker.check_input`: phase 4/6 re-check that the input attribute
still matches. -/
def MatchChecker.check_input {α : Type} [DecidableEq α]
    (mc : MatchChecker α) (added : Option α) : Except SigningError Unit :=
  if mc.attr.isMismatch then .ok ()
  else if attrEq added mc.attr then .ok ()
  else .error ⟨some .ProcessError, "Transaction has changed during signing"⟩

/-- Embedding of `MatchChecker.output_matches`: latches `read_only`, then reports whether
the output's attribute equals the stored one (false on MISMATCH). -/
def MatchChecker.output_matches {α : Type} [DecidableEq α]
    (mc : MatchChecker α) (added : Option α) : MatchChecker α × Bool :=
  if mc.attr.isMismatch then ({ mc with read_only := true }, false)
  else ({ mc with read_only := true }, attrEq added mc.attr)

/-- Embedding of `WalletPathChecker.attribute_from_tx`: `None` for a missing path, else
`address_n[:-2]` (all but the chain/index pair). -/
def WalletPathChecker_attribute_from_tx (address_n : List Nat) : Option (List Nat) :=
  if address_n.isEmpty then none
  else some (address_n.take (address_n.length - BIP32_WALLET_DEPTH))

/-- Insertion of one element into a sorted list (helper for the fingerprint). -/
def sortedInsert (x : Nat) : List Nat → List Nat
  | [] => [x]
  | y :: ys => if x ≤ y then x :: y :: ys else y :: sortedInsert x ys

/-- Insertion sort (helper for the fingerprint). -/
def insertionSort : List Nat → List Nat
  | [] => []
  | x :: xs => sortedInsert x (insertionSort xs)

/-- Modelled from the spec: `multisig.multisig_fingerprint` (module not under
src/).  Spec §4.2: "a checksum over the multisig descriptor's sorted public
keys and m-of-n parameters"; any deterministic nonempty digest of that data
serves, and no claim depends on its collision behaviour. -/
def multisig_fingerprint (ms : MultisigType) : List Nat :=
  ms.m :: insertionSort ms.pubkeys

/-- Embedding of `MultisigFingerprintChecker.attribute_from_tx`: `None` for non-multisig
txio, else the fingerprint. -/
def MultisigFingerprintChecker_attribute_from_tx
    (ms : Option MultisigType) : Option (List Nat) :=
  ms.map multisig_fingerprint

-- ===========================================================================
-- Change detection and phase 2 (signing.py lines 208-216, 297-308, 584-593)
-- ===========================================================================

/-- The two match checkers owned by the Signer. -/
structure ChangeCheckers where
  wallet_path : MatchChecker (List Nat)
  multisig_fingerprint : MatchChecker (List Nat)
deriving DecidableEq, Repr

/-- Tail of `output_is_change`: the `wallet_path.output_matches(txo) and
txo.address_n[-2] <= _BIP32_CHANGE_CHAIN and txo.address_n[-1] <=
_BIP32_MAX_LAST_ELEMENT` conjunction.  Negative indexing is rendered with
`getD` on `length - k`; a true `output_matches` forces `address_n` to have at
least three elements (the stored attribute is never the empty list), so the
defaults are never consulted on reachable paths. -/
def output_is_change_tail (s : ChangeCheckers) (txo : TxOutputType) :
    ChangeCheckers × Bool :=
  ({ s with wallet_path :=
      (s.wallet_path.output_matches (WalletPathChecker_attribute_from_tx txo.address_n)).1 },
    (s.wallet_path.output_matches (WalletPathChecker_attribute_from_tx txo.address_n)).2
    && decide (txo.address_n.getD (txo.address_n.length - 2) 0 ≤ BIP32_CHANGE_CHAIN)
    && decide (txo.address_n.getD (txo.address_n.length - 1) 0 ≤ BIP32_MAX_LAST_ELEMENT))

/-- Embedding of `Bitcoin.output_is_change` (signing.py 584-593).  The multisig checker is
consulted only when `txo.multisig` is truthy, exactly as in the source. -/
def output_is_change (s : ChangeCheckers) (txo : TxOutputType) :
    ChangeCheckers × Bool :=
  if txo.script_type ∈ CHANGE_OUTPUT_SCRIPT_TYPES then
    match txo.multisig with
    | some ms =>
      if (s.multisig_fingerprint.output_matches (some (multisig_fingerprint ms))).2 then
        output_is_change_tail
          { s with multisig_fingerprint :=
              (s.multisig_fingerprint.output_matches (some (multisig_fingerprint ms))).1 } txo
      else
        ({ s with multisig_fingerprint :=
            (s.multisig_fingerprint.output_matches (some (multisig_fingerprint ms))).1 }, false)
    | none => output_is_change_tail s txo
  else (s, false)

/-- Signer state threaded through phase 2. -/
structure Phase2State where
  change_out : Nat
  total_out : Nat
  checkers : ChangeCheckers
deriving DecidableEq, Repr

/-- Embedding of `Bitcoin.confirm_output` (signing.py 297-308), change/confirmation part.
`user_confirms` models the reply of `helpers.confirm_output` (external UI).
Returns the new change_out, the updated checkers and whether the output was
accepted silently as change.  Python's `and` short-circuits, so
`output_is_change` (and its checker mutation) runs only when
`change_out == 0`. -/
def confirm_output (change_out : Nat) (s : ChangeCheckers) (txo : TxOutputType)
    (user_confirms : Bool) : Except SigningError (Nat × ChangeCheckers × Bool) :=
  if change_out = 0 then
    if (output_is_change s txo).2 then .ok (txo.amount, (output_is_change s txo).1, true)
    else if user_confirms then .ok (change_out, (output_is_change s txo).1, false)
    else .error ⟨some .ActionCancelled, "Output cancelled"⟩
  else if user_confirms then .ok (change_out, s, false)
  else .error ⟨some .ActionCancelled, "Output cancelled"⟩

/-- Embedding of `Bitcoin.step2_confirm_outputs` (signing.py 208-216), restricted to the
state the change-acceptance claims observe.  Each list entry pairs the
streamed output with the user's would-be confirmation reply; the returned
trace records, per output, whether it was accepted silently and its amount. -/
def step2_confirm_outputs (s : Phase2State) :
    List (TxOutputType × Bool) → Except SigningError (Phase2State × List (Bool × Nat))
  | [] => .ok (s, [])
  | (txo, uc) :: rest =>
    match confirm_output s.change_out s.checkers txo uc with
    | .error e => .error e
    | .ok (co, ch, silent) =>
      match step2_confirm_outputs ⟨co, s.total_out + txo.amount, ch⟩ rest with
      | .error e => .error e
      | .ok (s', tr) => .ok (s', (silent, txo.amount) :: tr)

/-- Number of silently-accepted outputs in a phase-2 trace. -/
def silentCount (tr : List (Bool × Nat)) : Nat :=
  (tr.filter (fun p => p.1)).length

/-- Number of silently-accepted outputs with nonzero amount in a phase-2
trace. -/
def silentCountNz (tr : List (Bool × Nat)) : Nat :=
  (tr.filter (fun p => p.1 && decide (p.2 ≠ 0))).length

-- ===========================================================================
-- Phase 3: fee check (signing.py 218-222, 310-311; bitcoinlike.py 87-90)
-- ===========================================================================

/-- Embedding of `Bitcoin.on_negative_fee` (signing.py 310-311): always raises
NotEnoughFunds. -/
def Bitcoin_on_negative_fee : Except SigningError Unit :=
  .error ⟨some .NotEnoughFunds, "Not enough funds"⟩

/-- Embedding of `Bitcoinlike.on_negative_fee` (bitcoinlike.py 87-90): no-op when the coin
permits negative fees (reward transactions), else defers to the base. -/
def Bitcoinlike_on_negative_fee (coin : CoinInfo) : Except SigningError Unit :=
  if coin.negative_fee then .ok () else Bitcoin_on_negative_fee

/-- The fee computation and negative-fee gate opening
`Bitcoin.step3_confirm_tran` (signing.py 218-222), with the Bitcoinlike
`on_negative_fee` dispatch.  The fee is an `Int`: Python subtraction of
arbitrary-precision ints. -/
def step3_fee_stage (coin : CoinInfo) (total_in total_out : Nat) :
    Except SigningError Int :=
  let fee : Int := (total_in : Int) - (total_out : Int)
  if fee < 0 then
    match Bitcoinlike_on_negative_fee coin with
    | .error e => .error e
    | .ok _ => .ok fee
  else .ok fee

-- ===========================================================================
-- Phase 6: segwit witness signing (signing.py 331-342)
-- ===========================================================================

/-- The verification prefix of `Bitcoin.sign_segwit_input` (signing.py
331-342): re-check both checkers on the re-requested input, verify it is
still segwit-typed and that its amount has not grown beyond the remaining
`bip143_in`, then deduct the amount.  The signature production itself uses
only external primitives, so the produced witness is abstracted as the
`signature` parameter; the function returns the new `bip143_in` and the
signature. -/
def sign_segwit_input (wallet_path msfp : MatchChecker (List Nat))
    (bip143_in : Nat) (txi : TxInputType) (signature : List Nat) :
    Except SigningError (Nat × List Nat) :=
  match wallet_path.check_input (WalletPathChecker_attribute_from_tx txi.address_n) with
  | .error e => .error e
  | .ok _ =>
    match msfp.check_input (MultisigFingerprintChecker_attribute_from_tx txi.multisig) with
    | .error e => .error e
    | .ok _ =>
      if input_is_segwit txi = false ∨ bip143_in < txi.amount then
        .error ⟨some .ProcessError, "Transaction has changed during signing"⟩
      else
        .ok (bip143_in - txi.amount, signature)

-- ===========================================================================
-- Phase 4: legacy per-input signing (signing.py 371-445)
-- ===========================================================================

/-- The byte stream accumulated into `h_check` during
`Bitcoin.sign_nonsegwit_input`: `write_tx_input_check` of every re-streamed
input followed by `write_tx_output` of every re-derived binary output.
`wIn` and `wOut` are the external `writers` serializers, `derive` is
`output_derive_script`; `inOr`/`outOr` are the host's phase-4 replies. -/
def phase4_h_check (wIn : TxInputType → List Nat) (wOut : TxOutputBinType → List Nat)
    (derive : TxOutputType → List Nat) (inputs_count outputs_count : Nat)
    (inOr : Nat → TxInputType) (outOr : Nat → TxOutputType) : List Nat :=
  ((List.range inputs_count).map (fun i => wIn (inOr i))).flatten
    ++ ((List.range outputs_count).map
        (fun j => wOut ⟨(outOr j).amount, derive (outOr j)⟩)).flatten

/-- The per-target-input checks performed at iteration `i_sign` of the
phase-4 input loop: both checkers re-check the input, and its script type
must be SPENDMULTISIG or SPENDADDRESS (anything else raises "Unknown
transaction type"). -/
def sign_input_checks (wallet_path msfp : MatchChecker (List Nat))
    (txi : TxInputType) : Except SigningError Unit :=
  match wallet_path.check_input (WalletPathChecker_attribute_from_tx txi.address_n) with
  | .error e => .error e
  | .ok _ =>
    match msfp.check_input (MultisigFingerprintChecker_attribute_from_tx txi.multisig) with
    | .error e => .error e
    | .ok _ =>
      if txi.script_type = .SPENDMULTISIG ∨ txi.script_type = .SPENDADDRESS then .ok ()
      else .error ⟨some .ProcessError, "Unknown transaction type"⟩

/-- Embedding of `Bitcoin.sign_nonsegwit_input` (signing.py 371-445), restricted to its
control flow: the per-input checks at `i_sign`, the recomputation of
`h_check` over the re-streamed inputs and outputs, the control-digest
comparison against `h_confirmed`, and only then the signature.  Hashing is
modelled symbolically: a digest is the accumulated byte stream, so digest
equality is stream equality.  The `h_sign` preimage and the ECDSA call use
only external primitives and do not influence which error is raised before
signing; the produced signature is abstracted as the `signature`
parameter. -/
def sign_nonsegwit_input (wIn : TxInputType → List Nat)
    (wOut : TxOutputBinType → List Nat) (derive : TxOutputType → List Nat)
    (wallet_path msfp : MatchChecker (List Nat)) (h_confirmed : List Nat)
    (inputs_count outputs_count : Nat) (inOr : Nat → TxInputType)
    (outOr : Nat → TxOutputType) (i_sign : Nat) (signature : List Nat) :
    Except SigningError (List Nat) :=
  match (if i_sign < inputs_count
         then sign_input_checks wallet_path msfp (inOr i_sign)
         else .ok ()) with
  | .error e => .error e
  | .ok _ =>
    if h_confirmed ≠ phase4_h_check wIn wOut derive inputs_count outputs_count inOr outOr then
      .error ⟨some .ProcessError, "Transaction has changed during signing"⟩
    else .ok signature

-- ===========================================================================
-- Previous-transaction authentication (signing.py 455-499, 291-295)
-- ===========================================================================

/-- Embedding of `Bitcoin.write_tx_header` (signing.py 521-527): version, then the segwit
marker/flag pair when `has_segwit`.  `wU32`/`wVar` are the external
`writers.write_uint32` / `writers.write_varint`. -/
def Bitcoin_write_tx_header (wU32 wVar : Nat → List Nat) (version : Nat)
    (has_segwit : Bool) : List Nat :=
  wU32 version ++ (if has_segwit then wVar 0 ++ wVar 1 else [])

/-- The full byte stream fed to the double-SHA256 writer while a previous
transaction is streamed in `get_prevtx_output_value`: header (non-segwit),
varint input count, every input, varint output count, every output, footer
(lock_time). -/
def prevtx_stream (wU32 wVar : Nat → List Nat) (wIn : TxInputType → List Nat)
    (wOut : TxOutputBinType → List Nat) (tx : TransactionType)
    (inOr : Nat → TxInputType) (outOr : Nat → TxOutputBinType) : List Nat :=
  Bitcoin_write_tx_header wU32 wVar tx.version false
    ++ wVar tx.inputs_cnt
    ++ ((List.range tx.inputs_cnt).map (fun i => wIn (inOr i))).flatten
    ++ wVar tx.outputs_cnt
    ++ ((List.range tx.outputs_cnt).map (fun i => wOut (outOr i))).flatten
    ++ wU32 tx.lock_time

/-- Embedding of `writers.get_tx_hash` (external): finalize the running hash, optionally
double-hash, optionally reverse.  `hashFn` stands for SHA-256 over the
accumulated stream. -/
def get_tx_hash (hashFn : List Nat → List Nat) (double rev : Bool)
    (stream : List Nat) : List Nat :=
  let d := if double then hashFn (hashFn stream) else hashFn stream
  if rev then d.reverse else d

/-- Embedding of `Bitcoin.get_prevtx_output_value` (signing.py 455-499).  Returns the
result together with the byte stream that was fed to the hash writer before
the function finished: the "Not enough outputs" check precedes the creation
of the hash writer, so on that path the fed stream is empty. -/
def get_prevtx_output_value (hashFn : List Nat → List Nat)
    (wU32 wVar : Nat → List Nat) (wIn : TxInputType → List Nat)
    (wOut : TxOutputBinType → List Nat) (sign_hash_double : Bool)
    (tx : TransactionType) (inOr : Nat → TxInputType)
    (outOr : Nat → TxOutputBinType) (prev_hash : List Nat) (prev_index : Nat) :
    Except SigningError Nat × List Nat :=
  if tx.outputs_cnt ≤ prev_index then
    (.error ⟨some .ProcessError, "Not enough outputs in previous transaction."⟩, [])
  else
    let stream := prevtx_stream wU32 wVar wIn wOut tx inOr outOr
    let amount_out := (outOr prev_index).amount
    if get_tx_hash hashFn sign_hash_double true stream ≠ prev_hash then
      (.error ⟨some .ProcessError, "Encountered invalid prev_hash"⟩, stream)
    else (.ok amount_out, stream)

/-- Embedding of `Bitcoin.process_nonsegwit_input` (signing.py 291-295): authenticate the
referenced amount and add it to `total_in`. -/
def process_nonsegwit_input (hashFn : List Nat → List Nat)
    (wU32 wVar : Nat → List Nat) (wIn : TxInputType → List Nat)
    (wOut : TxOutputBinType → List Nat) (sign_hash_double : Bool)
    (total_in : Nat) (tx : TransactionType) (inOr : Nat → TxInputType)
    (outOr : Nat → TxOutputBinType) (prev_hash : List Nat) (prev_index : Nat) :
    Except SigningError Nat :=
  match (get_prevtx_output_value hashFn wU32 wVar wIn wOut sign_hash_double
          tx inOr outOr prev_hash prev_index).1 with
  | .ok a => .ok (total_in + a)
  | .error e => .error e

-- ===========================================================================
-- Sighash type (signing.py 507-509; bitcoinlike.py 108-113)
-- ===========================================================================

/-- Embedding of `Bitcoin.get_hash_type`: SIGHASH_ALL. -/
def Bitcoin_get_hash_type : Nat := 0x01

/-- Embedding of `Bitcoinlike.get_hash_type`: ORs in `(fork_id << 8) | SIGHASH_FORKID`
when the coin has a fork_id. -/
def Bitcoinlike_get_hash_type (coin : CoinInfo) : Nat :=
  match coin.fork_id with
  | none => Bitcoin_get_hash_type
  | some fid => Bitcoin_get_hash_type ||| ((fid <<< 8) ||| 0x40)

-- ===========================================================================
-- Address decoding (signing.py 568-572; bitcoinlike.py 92-106)
-- ===========================================================================

/-- cashaddr.ADDRESS_TYPE_P2KH (external `trezor.crypto.cashaddr`). -/
def cashaddr_ADDRESS_TYPE_P2KH : Nat := 0

/-- cashaddr.ADDRESS_TYPE_P2SH (external `trezor.crypto.cashaddr`). -/
def cashaddr_ADDRESS_TYPE_P2SH : Nat := 1

/-- Structural prefix test standing for Python `str.startswith`. -/
def strStartsWith (s pre : String) : Bool :=
  pre.data.isPrefixOf s.data

/-- Python `txo.address.split(":")` unpacked into the part before and after
the first colon. -/
def splitColon (s : String) : String × String :=
  (⟨s.data.takeWhile (fun c => c ≠ ':')⟩,
   ⟨(s.data.dropWhile (fun c => c ≠ ':')).drop 1⟩)

/-- Embedding of `Bitcoin.get_raw_address` (signing.py 568-572): Base58Check decode;
failure of the external decoder becomes DataError "Invalid address".
`b58decode` stands for `base58.decode_check` with the coin's hash. -/
def Bitcoin_get_raw_address (b58decode : String → Option (List Nat))
    (address : String) : Except SigningError (List Nat) :=
  match b58decode address with
  | some raw => .ok raw
  | none => .error ⟨some .DataError, "Invalid address"⟩

/-- Embedding of `Bitcoinlike.get_raw_address` (bitcoinlike.py 92-106): when the coin has
a CashAddr prefix and the address uses it, decode the CashAddr (external
`cashaddr.decode`, passed as `cashaddrDecode`), remap the version byte, and
for an unknown cashaddr address type raise a `SigningError` that carries
only a message and no FailureType, exactly as the source does. -/
def Bitcoinlike_get_raw_address (cashaddrDecode : String → String → Nat × List Nat)
    (b58decode : String → Option (List Nat)) (coin : CoinInfo)
    (address : String) : Except SigningError (List Nat) :=
  match CoinInfo.cashaddr_pfx coin with
  | some pfx =>
    if strStartsWith address (pfx ++ (":")) then
      let parts := splitColon address
      let vd := cashaddrDecode parts.1 parts.2
      if vd.1 = cashaddr_ADDRESS_TYPE_P2KH then
        .ok (coin.address_type :: vd.2)
      else if vd.1 = cashaddr_ADDRESS_TYPE_P2SH then
        .ok (coin.address_type_p2sh :: vd.2)
      else
        .error ⟨none, "Unknown cashaddr address type"⟩
    else Bitcoin_get_raw_address b58decode address
  | none => Bitcoin_get_raw_address b58decode address

-- ===========================================================================
-- MatchChecker operation sequences (for the invariant claims)
-- ===========================================================================

/-- A MatchChecker call: `add_input` or `output_matches`, with the extracted
attribute. -/
inductive MCOp (α : Type) where
  | addInput (a : Option α)
  | outputMatches (a : Option α)
deriving DecidableEq, Repr

/-- One MatchChecker call as a state step; `none` when the `ensure` failsafe
in `add_input` fires. -/
def mcStep {α : Type} [DecidableEq α] (falsy : α → Bool)
    (mc : MatchChecker α) : MCOp α → Option (MatchChecker α)
  | .addInput a => mc.add_input falsy a
  | .outputMatches a => some (mc.output_matches a).1

/-- The attribute transitions the spec allows: from UNDEFINED anywhere, from
a value only to the same value or MISMATCH, and never out of MISMATCH. -/
def attrStepOK {α : Type} : MCAttr α → MCAttr α → Prop
  | .undefined, _ => True
  | .value v, b => b = .value v ∨ b = .mismatch
  | .mismatch, b => b = .mismatch

-- ===========================================================================
-- Concrete fixtures used by counterexamples and witnesses
-- ===========================================================================

/-- A Bitcoin-Cash-like coin: fork_id 0x79, CashAddr, forced BIP-143. -/
def coinBCH : CoinInfo :=
  ⟨false, some 0x79, some ("bitcoincash"), 0, 5, false, true, true, false⟩

/-- A coin with no fork_id and no CashAddr. -/
def coinBTC : CoinInfo :=
  ⟨false, none, none, 0, 5, true, false, true, false⟩

/-- A non-multisig P2PKH-shaped change output on chain 1, index 0, under the
account prefix 44/0/0. -/
def c1txo : TxOutputType := ⟨5, .PAYTOADDRESS, "", [44, 0, 0, 1, 0], none⟩

/-- Checkers as they stand after phase 1 processed one non-multisig input
with path 44/0/0/0/0: the wallet-path checker holds the prefix, the
multisig-fingerprint checker is in MISMATCH. -/
def c2checkers : ChangeCheckers := ⟨⟨.value [44, 0, 0], false⟩, ⟨.mismatch, false⟩⟩

/-- A change-shaped output with amount 0. -/
def c2txoA : TxOutputType := ⟨0, .PAYTOADDRESS, "", [44, 0, 0, 1, 0], none⟩

/-- A change-shaped output with amount 7. -/
def c2txoB : TxOutputType := ⟨7, .PAYTOADDRESS, "", [44, 0, 0, 1, 1], none⟩

/-- A multisig change output matching both checkers. -/
def c1txoM : TxOutputType :=
  ⟨5, .PAYTOMULTISIG, "", [44, 0, 0, 1, 0], some ⟨[7, 3], 2⟩⟩

/-- Checkers holding the wallet path 44/0/0 and the fingerprint of the
2-of-n descriptor over pubkeys 7 and 3. -/
def c1checkersM : ChangeCheckers :=
  ⟨⟨.value [44, 0, 0], false⟩, ⟨.value [2, 3, 7], false⟩⟩

/-- A default input fixture. -/
def txiDefault : TxInputType := ⟨[], 0, 0, .SPENDADDRESS, [], none, 0⟩

/-- A default output fixture. -/
def txoDefault : TxOutputType := ⟨0, .PAYTOADDRESS, "", [], none⟩

-- ===========================================================================
-- Theorems
-- ===========================================================================

/-- C5: `get_hash_type` returns SIGHASH_ALL (0x01) when the coin has no
fork_id, and 0x01 | (fork_id << 8) | 0x40 when fork_id is set; for
fork_id = 0x79 the sighash type is 0x00007941. -/
theorem c5_get_hash_type (coin : CoinInfo) :
    (coin.fork_id = none → Bitcoinlike_get_hash_type coin = 0x01)
    ∧ (∀ fid, coin.fork_id = some fid →
        Bitcoinlike_get_hash_type coin = (0x01 ||| ((fid <<< 8) ||| 0x40)))
    ∧ (coin.fork_id = some 0x79 → Bitcoinlike_get_hash_type coin = 0x00007941) := by
  refine ⟨fun h => ?_, fun fid h => ?_, fun h => ?_⟩ <;>
    simp [Bitcoinlike_get_hash_type, Bitcoin_get_hash_type, h]

/-- C5 witness: concrete evaluation on a fork_id = 0x79 coin and on a coin
without fork_id. -/
theorem c5_witness :
    Bitcoinlike_get_hash_type coinBCH = 0x00007941
    ∧ Bitcoinlike_get_hash_type coinBTC = 0x01 :=
  ⟨(c5_get_hash_type coinBCH).2.2 rfl, (c5_get_hash_type coinBTC).1 rfl⟩

/-- C6: the fee is total_in - total_out; when it is negative,
`on_negative_fee` raises NotEnoughFunds on coins without the negative_fee
flag and returns without error on coins with it. -/
theorem c6_negative_fee (coin : CoinInfo) (total_in total_out : Nat)
    (hneg : (total_in : Int) - (total_out : Int) < 0) :
    (coin.negative_fee = false →
      step3_fee_stage coin total_in total_out =
        .error ⟨some .NotEnoughFunds, "Not enough funds"⟩)
    ∧ (coin.negative_fee = true →
      step3_fee_stage coin total_in total_out =
        .ok ((total_in : Int) - (total_out : Int))) := by
  constructor <;> intro h <;>
    simp [step3_fee_stage, Bitcoinlike_on_negative_fee, Bitcoin_on_negative_fee, hneg, h]

/-- C6 witness: a reward-style transaction (1 in, 2 out) on a coin without
and on a coin with the negative_fee flag. -/
theorem c6_witness :
    step3_fee_stage coinBTC 1 2 = .error ⟨some .NotEnoughFunds, "Not enough funds"⟩
    ∧ step3_fee_stage { coinBTC with negative_fee := true } 1 2 = .ok (-1) :=
  ⟨(c6_negative_fee coinBTC 1 2 (by decide)).1 rfl,
   (c6_negative_fee { coinBTC with negative_fee := true } 1 2 (by decide)).2 rfl⟩

/-- C10: when the input's prev_index is not below the previous transaction's
declared outputs_cnt, `get_prevtx_output_value` fails with
ProcessError "Not enough outputs in previous transaction." and no byte of
the previous transaction body has been fed to the hash writer. -/
theorem c10_prev_index_check (hashFn : List Nat → List Nat)
    (wU32 wVar : Nat → List Nat) (wIn : TxInputType → List Nat)
    (wOut : TxOutputBinType → List Nat) (dbl : Bool) (tx : TransactionType)
    (inOr : Nat → TxInputType) (outOr : Nat → TxOutputBinType)
    (prev_hash : List Nat) (prev_index : Nat)
    (h : tx.outputs_cnt ≤ prev_index) :
    get_prevtx_output_value hashFn wU32 wVar wIn wOut dbl tx inOr outOr
        prev_hash prev_index =
      (.error ⟨some .ProcessError, "Not enough outputs in previous transaction."⟩, []) := by
  simp [get_prevtx_output_value, h]

/-- C10 witness: a previous transaction declaring one output, referenced at
index 1. -/
theorem c10_witness :
    get_prevtx_output_value (fun s => s) (fun n => [n]) (fun n => [n])
        (fun txi => [txi.prev_index]) (fun o => [o.amount]) true
        ⟨2, 0, 1, 1⟩ (fun _ => txiDefault) (fun _ => ⟨33, []⟩) [] 1 =
      (.error ⟨some .ProcessError, "Not enough outputs in previous transaction."⟩, []) :=
  c10_prev_index_check (fun s => s) (fun n => [n]) (fun n => [n])
    (fun txi => [txi.prev_index]) (fun o => [o.amount]) true
    ⟨2, 0, 1, 1⟩ (fun _ => txiDefault) (fun _ => ⟨33, []⟩) [] 1 (by decide)

/-- C9: evaluation of `Bitcoinlike.get_raw_address` on a CashAddr address
whose decoded version byte is neither ADDRESS_TYPE_P2KH nor
ADDRESS_TYPE_P2SH: the raised SigningError carries no FailureType code, only
a message, contradicting the stated error-reporting convention. -/
theorem c9_cashaddr_error_evaluation :
    Bitcoinlike_get_raw_address (fun _ _ => (2, [1, 2, 3])) (fun _ => none)
        coinBCH ("bitcoincash:qxyz") =
      .error ⟨none, "Unknown cashaddr address type"⟩ := by
  rfl

/-- Any error produced by `MatchChecker.check_input` carries the
ProcessError code. -/
theorem check_input_error_code {α : Type} [DecidableEq α]
    (mc : MatchChecker α) (a : Option α) (e : SigningError)
    (h : mc.check_input a = .error e) : e.code = some .ProcessError := by
  unfold MatchChecker.check_input at h
  split at h
  · exact absurd h (by simp)
  · split at h
    · exact absurd h (by simp)
    · simp only [Except.error.injEq] at h
      rw [← h]

/-- C7: before a segwit witness is signed, `sign_segwit_input` verifies the
re-requested input is still segwit-typed and that its amount does not exceed
the remaining bip143_in; a violation of either condition raises
ProcessError "Transaction has changed during signing", and on success the
amount is deducted from bip143_in before the signature is emitted. -/
theorem c7_segwit_recheck (wp msfp : MatchChecker (List Nat)) (bip143_in : Nat)
    (txi : TxInputType) (sig : List Nat)
    (hwp : wp.check_input (WalletPathChecker_attribute_from_tx txi.address_n) = .ok ())
    (hms : msfp.check_input (MultisigFingerprintChecker_attribute_from_tx txi.multisig) = .ok ()) :
    ((input_is_segwit txi = false ∨ bip143_in < txi.amount) →
      sign_segwit_input wp msfp bip143_in txi sig =
        .error ⟨some .ProcessError, "Transaction has changed during signing"⟩)
    ∧ (input_is_segwit txi = true → txi.amount ≤ bip143_in →
      sign_segwit_input wp msfp bip143_in txi sig = .ok (bip143_in - txi.amount, sig)) := by
  constructor
  · intro hv
    simp [sign_segwit_input, hwp, hms, hv]
  · intro h1 h2
    simp [sign_segwit_input, hwp, hms, h1, Nat.not_lt.mpr h2]

/-- C7 witness: a native-segwit input with amount 3 against remaining
bip143_in 10, checked by a matching wallet-path checker and a MISMATCH
multisig checker. -/
theorem c7_witness :
    sign_segwit_input ⟨.value [84, 0, 0], false⟩ ⟨.mismatch, false⟩ 10
        ⟨[], 0, 3, .SPENDWITNESS, [84, 0, 0, 0, 7], none, 0⟩ [9, 9] = .ok (7, [9, 9]) :=
  (c7_segwit_recheck ⟨.value [84, 0, 0], false⟩ ⟨.mismatch, false⟩ 10
      ⟨[], 0, 3, .SPENDWITNESS, [84, 0, 0, 0, 7], none, 0⟩ [9, 9]
      (by rfl) (by rfl)).2 (by rfl) (by decide)

/-- Any error produced by the phase-4 per-target-input checks carries the
ProcessError code. -/
theorem sign_input_checks_code (wp msfp : MatchChecker (List Nat))
    (txi : TxInputType) (e : SigningError)
    (h : sign_input_checks wp msfp txi = .error e) : e.code = some .ProcessError := by
  unfold sign_input_checks at h
  cases h1 : wp.check_input (WalletPathChecker_attribute_from_tx txi.address_n) with
  | error e1 =>
    simp only [h1, Except.error.injEq] at h
    exact h ▸ check_input_error_code _ _ _ h1
  | ok u =>
    simp only [h1] at h
    cases h2 : msfp.check_input (MultisigFingerprintChecker_attribute_from_tx txi.multisig) with
    | error e2 =>
      simp only [h2, Except.error.injEq] at h
      exact h ▸ check_input_error_code _ _ _ h2
    | ok u2 =>
      simp only [h2] at h
      split at h
      · exact absurd h (by simp)
      · simp only [Except.error.injEq] at h
        rw [← h]

/-- C3: for a legacy input signed in phase 4, a produced signature implies
the recomputed h_check stream equals the h_confirmed digest from phases 1-2,
and whenever the two digests differ the function fails with a SigningError
carrying ProcessError and produces no signature. -/
theorem c3_legacy_digest_check (wIn : TxInputType → List Nat)
    (wOut : TxOutputBinType → List Nat) (derive : TxOutputType → List Nat)
    (wp msfp : MatchChecker (List Nat)) (h_confirmed : List Nat)
    (ic oc : Nat) (inOr : Nat → TxInputType) (outOr : Nat → TxOutputType)
    (i_sign : Nat) (sig : List Nat) :
    (∀ s, sign_nonsegwit_input wIn wOut derive wp msfp h_confirmed ic oc
        inOr outOr i_sign sig = .ok s →
      h_confirmed = phase4_h_check wIn wOut derive ic oc inOr outOr)
    ∧ (h_confirmed ≠ phase4_h_check wIn wOut derive ic oc inOr outOr →
      ∃ e, sign_nonsegwit_input wIn wOut derive wp msfp h_confirmed ic oc
          inOr outOr i_sign sig = .error e ∧ e.code = some .ProcessError) := by
  constructor
  · intro s hs
    unfold sign_nonsegwit_input at hs
    cases hpre : (if i_sign < ic then sign_input_checks wp msfp (inOr i_sign) else .ok ()) with
    | error e => rw [hpre] at hs; exact absurd hs (by simp)
    | ok u =>
      rw [hpre] at hs
      by_cases heq : h_confirmed = phase4_h_check wIn wOut derive ic oc inOr outOr
      · exact heq
      · rw [if_pos heq] at hs
        exact absurd hs (by simp)
  · intro hne
    unfold sign_nonsegwit_input
    cases hpre : (if i_sign < ic then sign_input_checks wp msfp (inOr i_sign) else .ok ()) with
    | error e =>
      refine ⟨e, rfl, ?_⟩
      by_cases hi : i_sign < ic
      · rw [if_pos hi] at hpre
        exact sign_input_checks_code _ _ _ _ hpre
      · rw [if_neg hi] at hpre
        exact absurd hpre (by simp)
    | ok u =>
      exact ⟨⟨some .ProcessError, "Transaction has changed during signing"⟩,
        by rw [if_pos hne], rfl⟩

/-- C3 witness: a one-input, one-output legacy transaction whose phase-4
streams reproduce the phase 1-2 commitment, so signing succeeds and the
theorem yields the digest equality. -/
theorem c3_witness :
    ([[0], [11]].flatten : List Nat) =
      phase4_h_check (fun txi => [txi.prev_index]) (fun o => [o.amount])
        (fun _ => []) 1 1
        (fun _ => ⟨[], 0, 0, .SPENDADDRESS, [44, 0, 0, 0, 0], none, 0⟩)
        (fun _ => ⟨11, .PAYTOADDRESS, "", [], none⟩) :=
  (c3_legacy_digest_check (fun txi => [txi.prev_index]) (fun o => [o.amount])
      (fun _ => []) ⟨.value [44, 0, 0], false⟩ ⟨.mismatch, false⟩
      ([[0], [11]].flatten) 1 1
      (fun _ => ⟨[], 0, 0, .SPENDADDRESS, [44, 0, 0, 0, 0], none, 0⟩)
      (fun _ => ⟨11, .PAYTOADDRESS, "", [], none⟩) 0 [5]).1 [5] (by rfl)

/-- C4: for a legacy input, the streamed previous transaction is fed to the
(double-)hash writer; when the reversed final digest differs from prev_hash
the function fails with ProcessError "Encountered invalid prev_hash", and
exactly when it matches the referenced output's amount is returned and added
to total_in by `process_nonsegwit_input`. -/
theorem c4_prevtx_authentication (hashFn : List Nat → List Nat)
    (wU32 wVar : Nat → List Nat) (wIn : TxInputType → List Nat)
    (wOut : TxOutputBinType → List Nat) (dbl : Bool) (total_in : Nat)
    (tx : TransactionType) (inOr : Nat → TxInputType)
    (outOr : Nat → TxOutputBinType) (prev_hash : List Nat) (prev_index : Nat)
    (hidx : prev_index < tx.outputs_cnt) :
    (get_tx_hash hashFn dbl true (prevtx_stream wU32 wVar wIn wOut tx inOr outOr) = prev_hash →
      get_prevtx_output_value hashFn wU32 wVar wIn wOut dbl tx inOr outOr prev_hash prev_index =
        (.ok ((outOr prev_index).amount), prevtx_stream wU32 wVar wIn wOut tx inOr outOr)
      ∧ process_nonsegwit_input hashFn wU32 wVar wIn wOut dbl total_in tx inOr outOr
          prev_hash prev_index = .ok (total_in + (outOr prev_index).amount))
    ∧ (get_tx_hash hashFn dbl true (prevtx_stream wU32 wVar wIn wOut tx inOr outOr) ≠ prev_hash →
      get_prevtx_output_value hashFn wU32 wVar wIn wOut dbl tx inOr outOr prev_hash prev_index =
        (.error ⟨some .ProcessError, "Encountered invalid prev_hash"⟩,
          prevtx_stream wU32 wVar wIn wOut tx inOr outOr)
      ∧ process_nonsegwit_input hashFn wU32 wVar wIn wOut dbl total_in tx inOr outOr
          prev_hash prev_index =
        .error ⟨some .ProcessError, "Encountered invalid prev_hash"⟩) := by
  have hnot : ¬(tx.outputs_cnt ≤ prev_index) := Nat.not_le.mpr hidx
  constructor
  · intro hmatch
    have h1 : get_prevtx_output_value hashFn wU32 wVar wIn wOut dbl tx inOr outOr
        prev_hash prev_index =
        (.ok ((outOr prev_index).amount), prevtx_stream wU32 wVar wIn wOut tx inOr outOr) := by
      simp [get_prevtx_output_value, hnot, hmatch]
    exact ⟨h1, by simp [process_nonsegwit_input, h1]⟩
  · intro hmm
    have h1 : get_prevtx_output_value hashFn wU32 wVar wIn wOut dbl tx inOr outOr
        prev_hash prev_index =
        (.error ⟨some .ProcessError, "Encountered invalid prev_hash"⟩,
          prevtx_stream wU32 wVar wIn wOut tx inOr outOr) := by
      simp [get_prevtx_output_value, hnot, hmm]
    exact ⟨h1, by simp [process_nonsegwit_input, h1]⟩

/-- C4 witness: a 1-in/1-out previous transaction hashed with a concrete
writer whose reversed digest matches prev_hash; the authenticated amount 33
is added to total_in 10. -/
theorem c4_witness :
    process_nonsegwit_input (fun s => s) (fun n => [n]) (fun n => [n])
        (fun txi => [txi.prev_index]) (fun o => [o.amount]) true 10
        ⟨2, 0, 1, 1⟩ (fun _ => txiDefault) (fun _ => ⟨33, []⟩)
        [0, 33, 1, 0, 1, 2] 0 = .ok 43 :=
  ((c4_prevtx_authentication (fun s => s) (fun n => [n]) (fun n => [n])
      (fun txi => [txi.prev_index]) (fun o => [o.amount]) true 10
      ⟨2, 0, 1, 1⟩ (fun _ => txiDefault) (fun _ => ⟨33, []⟩)
      [0, 33, 1, 0, 1, 2] 0 (by decide)).1 (by rfl)).2

/-- The allowed attribute transition relation is reflexive. -/
theorem attrStepOK_refl {α : Type} (a : MCAttr α) : attrStepOK a a := by
  cases a <;> simp [attrStepOK]

/-- The state component of `output_matches` only sets the read-only latch. -/
theorem output_matches_fst {α : Type} [DecidableEq α] (mc : MatchChecker α)
    (a : Option α) : (mc.output_matches a).1 = { mc with read_only := true } := by
  unfold MatchChecker.output_matches
  split <;> rfl

/-- A successful `add_input` performs an allowed attribute transition and
does not touch the read-only latch. -/
theorem add_input_attr_step {α : Type} [DecidableEq α] (falsy : α → Bool)
    (mc mc' : MatchChecker α) (a : Option α)
    (h : MatchChecker.add_input falsy mc a = some mc') :
    attrStepOK mc.attr mc'.attr ∧ mc.read_only = mc'.read_only := by
  obtain ⟨att, ro⟩ := mc
  simp only [MatchChecker.add_input] at h
  cases ro <;> cases att <;> cases a <;>
    simp only [MCAttr.isMismatch] at h <;>
    split_ifs at h <;>
    (try (injection h with h; subst h)) <;>
    simp_all [attrStepOK]

/-- C8: every MatchChecker step preserves the allowed attribute transitions
(UNDEFINED to anything, a value only to itself or MISMATCH, MISMATCH
absorbing) and the read-only latch is monotone; `output_matches` always sets
the latch, and once it is set every `add_input` call fails. -/
theorem c8_matchchecker_invariants {α : Type} [DecidableEq α] (falsy : α → Bool) :
    (∀ (mc : MatchChecker α) (op : MCOp α) (mc' : MatchChecker α),
        mcStep falsy mc op = some mc' →
          attrStepOK mc.attr mc'.attr ∧ (mc.read_only = true → mc'.read_only = true))
    ∧ (∀ (mc : MatchChecker α) (a : Option α),
        ((mc.output_matches a).1).read_only = true)
    ∧ (∀ (mc : MatchChecker α) (a : Option α),
        mc.read_only = true → MatchChecker.add_input falsy mc a = none) := by
  refine ⟨?_, ?_, ?_⟩
  · intro mc op mc' h
    cases op with
    | addInput a =>
      simp only [mcStep] at h
      obtain ⟨h1, h2⟩ := add_input_attr_step falsy mc mc' a h
      exact ⟨h1, fun hro => h2 ▸ hro⟩
    | outputMatches a =>
      simp only [mcStep, Option.some.injEq] at h
      rw [output_matches_fst] at h
      subst h
      exact ⟨attrStepOK_refl _, fun _ => rfl⟩
  · intro mc a
    rw [output_matches_fst]
  · intro mc a hro
    unfold MatchChecker.add_input
    simp [hro]

/-- C8 witness: an `add_input` of an input with no attribute moves a stored
value to MISMATCH, an allowed transition, leaving the latch unset. -/
theorem c8_witness :
    attrStepOK (MCAttr.value [1]) (MCAttr.mismatch : MCAttr (List Nat))
    ∧ (false = true → false = true) :=
  (c8_matchchecker_invariants List.isEmpty).1 ⟨.value [1], false⟩
    (.addInput none) ⟨.mismatch, false⟩ rfl

/-- C1 counterexample: with checkers as left by phase 1 on a single
non-multisig P2PKH input (wallet-path holds 44/0/0, multisig checker in
MISMATCH — both states exhibited reachable via `add_input` in the last two
conjuncts), the non-multisig change output `c1txo` is accepted as change
although the multisig-fingerprint checker's `output_matches` returns false
on it, refuting "both match checkers admit it". -/
theorem c1_counterexample :
    ((output_is_change ⟨⟨.value [44, 0, 0], false⟩, ⟨.mismatch, false⟩⟩ c1txo).2 = true)
    ∧ ((MatchChecker.output_matches ⟨.mismatch, false⟩
        (MultisigFingerprintChecker_attribute_from_tx c1txo.multisig)).2 = false)
    ∧ (MatchChecker.add_input List.isEmpty ⟨.undefined, false⟩
        (WalletPathChecker_attribute_from_tx [44, 0, 0, 0, 0]) =
          some ⟨.value [44, 0, 0], false⟩)
    ∧ (MatchChecker.add_input List.isEmpty ⟨.undefined, false⟩
        (MultisigFingerprintChecker_attribute_from_tx none) =
          some ⟨.mismatch, false⟩) :=
  ⟨rfl, rfl, rfl, rfl⟩

/-- C1 (amended): an output is accepted as change only if the wallet-path
checker's `output_matches` returns true, its script_type is in the
change-allowed set, the multisig-fingerprint checker's `output_matches`
returns true whenever the output carries a multisig descriptor (it is not
consulted otherwise), the path's second-to-last element is at most 1 and its
last element is at most 1000000. -/
theorem c1_output_is_change_amended (s : ChangeCheckers) (txo : TxOutputType)
    (h : (output_is_change s txo).2 = true) :
    (s.wallet_path.output_matches (WalletPathChecker_attribute_from_tx txo.address_n)).2 = true
    ∧ txo.script_type ∈ CHANGE_OUTPUT_SCRIPT_TYPES
    ∧ (∀ ms, txo.multisig = some ms →
        (s.multisig_fingerprint.output_matches (some (multisig_fingerprint ms))).2 = true)
    ∧ txo.address_n.getD (txo.address_n.length - 2) 0 ≤ BIP32_CHANGE_CHAIN
    ∧ txo.address_n.getD (txo.address_n.length - 1) 0 ≤ BIP32_MAX_LAST_ELEMENT := by
  unfold output_is_change at h
  by_cases hst : txo.script_type ∈ CHANGE_OUTPUT_SCRIPT_TYPES
  · rw [if_pos hst] at h
    cases hms : txo.multisig with
    | none =>
      simp only [hms] at h
      unfold output_is_change_tail at h
      simp only [Bool.and_eq_true, decide_eq_true_eq] at h
      exact ⟨h.1.1, hst,
        fun ms hms2 => absurd hms2 (by simp), h.1.2, h.2⟩
    | some ms =>
      simp only [hms] at h
      by_cases hmb :
        (s.multisig_fingerprint.output_matches (some (multisig_fingerprint ms))).2 = true
      · rw [if_pos hmb] at h
        unfold output_is_change_tail at h
        simp only [Bool.and_eq_true, decide_eq_true_eq] at h
        refine ⟨h.1.1, hst, fun ms2 hms2 => ?_, h.1.2, h.2⟩
        injection hms2 with e
        rw [← e]
        exact hmb
      · rw [if_neg hmb] at h
        exact absurd h (by simp)
  · rw [if_neg hst] at h
    exact absurd h (by simp)

/-- C1 witness: the amended theorem applied to a multisig change output
accepted by both checkers. -/
theorem c1_witness :
    (c1checkersM.multisig_fingerprint.output_matches
        (some (multisig_fingerprint ⟨[7, 3], 2⟩))).2 = true
    ∧ c1txoM.address_n.getD (c1txoM.address_n.length - 2) 0 ≤ BIP32_CHANGE_CHAIN :=
  ⟨(c1_output_is_change_amended c1checkersM c1txoM rfl).2.2.1 ⟨[7, 3], 2⟩ rfl,
   (c1_output_is_change_amended c1checkersM c1txoM rfl).2.2.2.1⟩

/-- C2 counterexample: starting from change_out = 0 with checkers as left by
phase 1, a change-shaped output with amount 0 followed by a change-shaped
output with amount 7 are BOTH accepted silently (trace flags), because the
first acceptance stores amount 0 into change_out and so does not disable the
silent path; no user confirmation is consulted (both replies are set to
decline, yet no error is raised). -/
theorem c2_counterexample :
    step2_confirm_outputs ⟨0, 0, c2checkers⟩ [(c2txoA, false), (c2txoB, false)] =
      .ok (⟨7, 7, ⟨⟨.value [44, 0, 0], true⟩, ⟨.mismatch, false⟩⟩⟩,
        [(true, 0), (true, 7)])
    ∧ silentCount [(true, 0), (true, 7)] = 2 :=
  ⟨rfl, rfl⟩

/-- Case analysis of a successful `confirm_output`: either the output was
accepted silently (possible only with change_out = 0, and change_out becomes
the output's amount), or it was confirmed and change_out is unchanged. -/
theorem confirm_output_cases (c : Nat) (ch : ChangeCheckers) (txo : TxOutputType)
    (uc : Bool) (co : Nat) (ch2 : ChangeCheckers) (silent : Bool)
    (h : confirm_output c ch txo uc = .ok (co, ch2, silent)) :
    (silent = true ∧ c = 0 ∧ co = txo.amount) ∨ (silent = false ∧ co = c) := by
  unfold confirm_output at h
  by_cases h1 : c = 0
  · rw [if_pos h1] at h
    by_cases h2 : (output_is_change ch txo).2 = true
    · rw [if_pos h2] at h
      simp only [Except.ok.injEq, Prod.mk.injEq] at h
      exact Or.inl ⟨h.2.2.symm, h1, h.1.symm⟩
    · rw [if_neg h2] at h
      cases uc with
      | true =>
        rw [if_pos rfl] at h
        simp only [Except.ok.injEq, Prod.mk.injEq] at h
        exact Or.inr ⟨h.2.2.symm, h.1.symm⟩
      | false =>
        rw [if_neg (by simp)] at h
        exact absurd h (by simp)
  · rw [if_neg h1] at h
    cases uc with
    | true =>
      rw [if_pos rfl] at h
      simp only [Except.ok.injEq, Prod.mk.injEq] at h
      exact Or.inr ⟨h.2.2.symm, h.1.symm⟩
    | false =>
      rw [if_neg (by simp)] at h
      exact absurd h (by simp)

/-- Unfolding of the nonzero-silent count over a trace entry. -/
theorem silentCountNz_cons (b : Bool) (a : Nat) (tr : List (Bool × Nat)) :
    silentCountNz ((b, a) :: tr) =
      (if b = true ∧ a ≠ 0 then 1 else 0) + silentCountNz tr := by
  by_cases hb : b = true ∧ a ≠ 0
  · obtain ⟨hb1, hb2⟩ := hb
    subst hb1
    simp [silentCountNz, List.filter_cons, hb2, Nat.add_comm]
  · rw [if_neg hb]
    cases b with
    | false => simp [silentCountNz, List.filter_cons]
    | true =>
      have ha : a = 0 := by
        by_contra ha
        exact hb ⟨rfl, ha⟩
      subst ha
      simp [silentCountNz, List.filter_cons]

/-- Nonzero-silent acceptances along any phase-2 run: at most one overall,
and none at all when change_out starts nonzero. -/
theorem step2_silent_aux (outs : List (TxOutputType × Bool)) :
    ∀ (s s' : Phase2State) (tr : List (Bool × Nat)),
      step2_confirm_outputs s outs = .ok (s', tr) →
        silentCountNz tr ≤ 1 ∧ (s.change_out ≠ 0 → silentCountNz tr = 0) := by
  induction outs with
  | nil =>
    intro s s' tr h
    simp only [step2_confirm_outputs, Except.ok.injEq, Prod.mk.injEq] at h
    rw [← h.2]
    exact ⟨by simp [silentCountNz], fun _ => by simp [silentCountNz]⟩
  | cons p rest ih =>
    intro s s' tr h
    obtain ⟨txo, uc⟩ := p
    simp only [step2_confirm_outputs] at h
    cases hco : confirm_output s.change_out s.checkers txo uc with
    | error e =>
      simp only [hco] at h
      exact absurd h (by simp)
    | ok trip =>
      obtain ⟨co, ch2, silent⟩ := trip
      simp only [hco] at h
      cases hrest : step2_confirm_outputs ⟨co, s.total_out + txo.amount, ch2⟩ rest with
      | error e2 =>
        simp only [hrest] at h
        exact absurd h (by simp)
      | ok pr =>
        obtain ⟨s2, tr2⟩ := pr
        simp only [hrest, Except.ok.injEq, Prod.mk.injEq] at h
        rw [← h.2]
        have IH := ih ⟨co, s.total_out + txo.amount, ch2⟩ s2 tr2 hrest
        rcases confirm_output_cases s.change_out s.checkers txo uc co ch2 silent hco with
          ⟨hsil, hc0, hcoamt⟩ | ⟨hsil, hcoeq⟩
        · subst hsil
          rw [silentCountNz_cons]
          constructor
          · by_cases ha : txo.amount ≠ 0
            · have h0 : silentCountNz tr2 = 0 := IH.2 (by
                show co ≠ 0
                rw [hcoamt]
                exact ha)
              rw [h0]
              simp [ha]
            · rw [if_neg (by simp [ha])]
              simpa using IH.1
          · intro hne
            exact absurd hc0 hne
        · subst hsil
          rw [silentCountNz_cons]
          rw [if_neg (by simp)]
          constructor
          · simpa using IH.1
          · intro hne
            have h0 : silentCountNz tr2 = 0 := IH.2 (by
              show co ≠ 0
              rw [hcoeq]
              exact hne)
            simpa using h0

/-- C2 (amended): in any phase-2 run, at most one output with a NONZERO
amount is accepted silently as change (an accepted change output with amount
0 leaves change_out at 0, so further change-shaped outputs may also be
accepted silently); and any output that would need confirmation raises
SigningError(ActionCancelled) when the user declines. -/
theorem c2_silent_change_amended :
    (∀ (s : Phase2State) (outs : List (TxOutputType × Bool)) (s' : Phase2State)
        (tr : List (Bool × Nat)),
      step2_confirm_outputs s outs = .ok (s', tr) → silentCountNz tr ≤ 1)
    ∧ (∀ (c : Nat) (ch : ChangeCheckers) (txo : TxOutputType) (co : Nat)
        (ch2 : ChangeCheckers),
      confirm_output c ch txo true = .ok (co, ch2, false) →
        confirm_output c ch txo false =
          .error ⟨some .ActionCancelled, "Output cancelled"⟩) := by
  constructor
  · intro s outs s' tr h
    exact (step2_silent_aux outs s s' tr h).1
  · intro c ch txo co ch2 h
    unfold confirm_output at h ⊢
    by_cases h1 : c = 0
    · rw [if_pos h1] at h ⊢
      by_cases h2 : (output_is_change ch txo).2 = true
      · rw [if_pos h2] at h
        exact absurd h (by simp)
      · rw [if_neg h2] at h ⊢
        simp
    · rw [if_neg h1] at h ⊢
      simp

/-- C2 witness: a single nonzero change output accepted silently gives a
trace with nonzero-silent count 1. -/
theorem c2_witness : silentCountNz [(true, 7)] ≤ 1 :=
  c2_silent_change_amended.1 ⟨0, 0, c2checkers⟩ [(c2txoB, false)]
    ⟨7, 7, ⟨⟨.value [44, 0, 0], true⟩, ⟨.mismatch, false⟩⟩⟩ [(true, 7)] rfl
